import Mathlib

/-!
Verification of the `lfp-logging-py` repository: a shallow embedding in Lean 4
of the lazy-initialization logging facade (`src/lfp_logging/logs.py`,
`src/lfp_logging/log_level.py`, `src/lfp_logging/config.py`), together with
theorems settling the specification's claims about it.

Python strings are embedded as Lean `String`, machine integers as `Int`,
`None`-able values as `Option`, and exceptions as `Except`/error fields.
The character-level helpers below reproduce the semantics of the Python
string methods the source uses (`upper`, `lower`, `isdigit`, `endswith`,
`int(...)` on digit strings, `replace(" ", "_")`) over `List Char`, so every
definition reduces in the kernel.
-/

/-- Python `str.upper` on an ASCII character (`'a'..'z'` maps to `'A'..'Z'`). -/
def pyUpperChar (c : Char) : Char :=
  if 'a' ≤ c ∧ c ≤ 'z' then Char.ofNat (c.toNat - 32) else c

/-- Python `str.lower` on an ASCII character. -/
def pyLowerChar (c : Char) : Char :=
  if 'A' ≤ c ∧ c ≤ 'Z' then Char.ofNat (c.toNat + 32) else c

/-- Python `value.upper()`. -/
def strUpper (s : String) : String := ⟨s.data.map pyUpperChar⟩

/-- Python `value.lower()` (also standing in for `casefold`, which agrees with
`lower` on the ASCII tokens the source compares against). -/
def strLower (s : String) : String := ⟨s.data.map pyLowerChar⟩

/-- Python `str.isdigit` character class: true for the ASCII decimal digits
and also for non-decimal digit characters (Unicode `Numeric_Type=Digit`),
of which the superscript and subscript digits are embedded here — the code
points this development exercises. Decimal digits beyond ASCII (e.g.
Arabic-Indic), which CPython `int()` does accept, are outside the model. -/
def pyDigitChar (c : Char) : Bool :=
  c.isDigit || c = '¹' || c = '²' || c = '³' || c = '⁰' ||
    ('⁴' ≤ c && c ≤ '⁹') || ('₀' ≤ c && c ≤ '₉')

/-- Python `value.isdigit()`: nonempty and all digit characters — a strictly
wider class than what `int(...)` accepts. -/
def pyIsDigit (s : String) : Bool := !s.data.isEmpty && s.data.all pyDigitChar

/-- The decimal value of an ASCII digit string. -/
def digitsToNat (s : String) : Nat :=
  s.data.foldl (fun a c => a * 10 + (c.toNat - 48)) 0

/-- Python `int(value)` on an `isdigit`-true string: the decimal value when
every character is an ASCII decimal digit; a non-decimal digit character
such as `'²'` makes `int` raise `ValueError`. -/
def intOfDigits (s : String) : Except String Nat :=
  if !s.data.isEmpty && s.data.all Char.isDigit then Except.ok (digitsToNat s)
  else Except.error ("invalid literal for int() with base 10: " ++ s)

instance {ε α : Type} [DecidableEq ε] [DecidableEq α] : DecidableEq (Except ε α) :=
  fun a b =>
    match a, b with
    | Except.error e, Except.error f => decidable_of_iff (e = f) (by simp)
    | Except.error _, Except.ok _ => Decidable.isFalse (by simp)
    | Except.ok _, Except.error _ => Decidable.isFalse (by simp)
    | Except.ok x, Except.ok y => decidable_of_iff (x = y) (by simp)

/-- Python `value.endswith(suffix)`. -/
def strEndsWith (s post : String) : Bool := post.data.isSuffixOf s.data

/-- Python `value.replace(" ", "_")` (single-character pattern, so a map). -/
def replaceSpaces (s : String) : String :=
  ⟨s.data.map (fun c => if c = ' ' then '_' else c)⟩

/-!
## The host `logging` module's level tables

`logging.getLevelName` consults `_levelToName` for integer input and
`_nameToLevel` for string input; a miss produces the string `"Level %s"`.
The source (`logs.py:145-160`, `log_level.py:46-56`) relies on exactly this
behaviour, so the two stdlib tables are embedded here.
-/

/-- `logging._levelToName`: canonical name of an integer severity. -/
def levelToName (n : Int) : Option String :=
  if n = 50 then some "CRITICAL"
  else if n = 40 then some "ERROR"
  else if n = 30 then some "WARNING"
  else if n = 20 then some "INFO"
  else if n = 10 then some "DEBUG"
  else if n = 0 then some "NOTSET"
  else none

/-- `logging._nameToLevel`: severity of a (canonical or alias) level name. -/
def nameToLevel (s : String) : Option Int :=
  if s = "CRITICAL" then some 50
  else if s = "FATAL" then some 50
  else if s = "ERROR" then some 40
  else if s = "WARN" then some 30
  else if s = "WARNING" then some 30
  else if s = "INFO" then some 20
  else if s = "DEBUG" then some 10
  else if s = "NOTSET" then some 0
  else none

/-- `logging.getLevelName(levelNo)` for integer input: the canonical name, or
the no-match string `"Level %d"`. -/
def getLevelNameOfInt (n : Int) : String :=
  (levelToName n).getD ("Level " ++ toString n)

/-- A record object of the host `logging` module, as far as the source
inspects one (`config.py:52-71` passes a whole record to the level parser,
which only ever sees its `str()` form). -/
structure PyLogRecord where
  name : String
  levelno : Int
  pathname : String
  lineno : Int
  msg : String
deriving DecidableEq

/-- Python `str(record)`: `logging.LogRecord.__repr__` renders
`<LogRecord: name, levelno, pathname, lineno, "msg">`. -/
def pyStrRecord (r : PyLogRecord) : String :=
  "<LogRecord: " ++ r.name ++ ", " ++ toString r.levelno ++ ", " ++
    r.pathname ++ ", " ++ toString r.lineno ++ ", \x22" ++ r.msg ++ "\x22>"

/-- A dynamically typed Python value as passed to the level parsers
(`value: Any`): `None`, an `int`, a `str`, or a `logging.LogRecord`. -/
inductive PyVal where
  | none
  | int (n : Int)
  | str (s : String)
  | record (r : PyLogRecord)
deriving DecidableEq

/-- `LogLevel` (`log_level.py:13-27` and `logs.py:33-47`): a name paired with
its integer severity. -/
structure LogLevel where
  name : String
  level : Int
deriving DecidableEq

/-- The integer branch shared by `logs.py` `log_level` (lines 143-152) and
`log_level.py` `get` (lines 44-48): accept `level_no` iff
`logging.getLevelName` yields a nonempty name not starting with `"Level "`. -/
def logLevelOfInt (n : Int) : Option LogLevel :=
  let levelName := getLevelNameOfInt n
  if levelName ≠ "" ∧ ¬("Level ".data.isPrefixOf levelName.data) then
    some ⟨levelName, n⟩
  else
    Option.none

/-- `logs.py` `log_level(value)` (lines 130-163); also the resolution core
of `log_level.py` `get` (lines 43-56), whose body is identical token for
token. `None` and unresolvable values yield `ok none`; a non-int value is
stringified, uppercased, looked up by name, and a digit string (per
`str.isdigit`) is handed to `int(...)` and retried as an integer — so an
`isdigit`-true string that is not a valid decimal literal (e.g. `"²"`)
raises `ValueError`, which neither function catches. -/
def log_level_fn : PyVal → Except String (Option LogLevel)
  | PyVal.none => Except.ok Option.none
  | PyVal.int n => Except.ok (logLevelOfInt n)
  | PyVal.str s =>
    if s = "" then Except.ok Option.none
    else
      let levelName := strUpper s
      match nameToLevel levelName with
      | some levelNo => Except.ok (some ⟨levelName, levelNo⟩)
      | Option.none =>
        if pyIsDigit levelName then
          match intOfDigits levelName with
          | Except.ok levelNo => Except.ok (logLevelOfInt levelNo)
          | Except.error e => Except.error e
        else Except.ok Option.none
  | PyVal.record r =>
    -- `str(value)` of a LogRecord is its repr, never empty.
    let levelName := strUpper (pyStrRecord r)
    match nameToLevel levelName with
    | some levelNo => Except.ok (some ⟨levelName, levelNo⟩)
    | Option.none =>
      if pyIsDigit levelName then
        match intOfDigits levelName with
        | Except.ok levelNo => Except.ok (logLevelOfInt levelNo)
        | Except.error e => Except.error e
      else Except.ok Option.none

/-- The `default_value` argument of `log_level.py` `get`: the `_UNSET`
sentinel, an explicit `None`, or a provided string/int default. -/
inductive GetDefault where
  | unset
  | noneDefault
  | strDefault (s : String)
  | intDefault (n : Int)
deriving DecidableEq

/-- `log_level.py` `get(value, default_value)` (lines 30-61): resolve
`value`; on resolution failure return `None` when the default is an
explicit `None`, raise `ValueError` when the default is the `_UNSET`
sentinel, and otherwise recursively resolve the provided default with the
sentinel (so an unresolvable default raises). A `ValueError` raised by
`int(level_name)` at line 56 happens before the default is consulted and
propagates uncaught, regardless of the default. -/
def log_level_get (value : PyVal) (defaultValue : GetDefault) :
    Except String (Option LogLevel) :=
  match log_level_fn value with
  | Except.error e => Except.error e
  | Except.ok (some ll) => Except.ok (some ll)
  | Except.ok Option.none =>
    match defaultValue with
    | GetDefault.noneDefault => Except.ok Option.none
    | GetDefault.unset => Except.error "LogLevel not found"
    | GetDefault.strDefault s =>
      match log_level_fn (PyVal.str s) with
      | Except.error e => Except.error e
      | Except.ok (some ll) => Except.ok (some ll)
      | Except.ok Option.none => Except.error "LogLevel not found"
    | GetDefault.intDefault n =>
      match log_level_fn (PyVal.int n) with
      | Except.error e => Except.error e
      | Except.ok (some ll) => Except.ok (some ll)
      | Except.ok Option.none => Except.error "LogLevel not found"

/-!
## Level resolution at initialization time (`logs.py:262-306`, `logs.py:180-183`)
-/

/-- `logging.INFO`, the built-in default threshold (`logs.py:21`). -/
def LOG_LEVEL_DEFAULT : Int := 20

/-- `logs.py` `_parse_bool(value)` (lines 289-306) restricted to the
`os.environ.get` results it is applied to (`None` or a string): case-folded
membership in the `_BOOL_VALUES` lists. -/
def parseBoolLogs : Option String → Option Bool
  | Option.none => Option.none
  | some s =>
    if s = "" then Option.none
    else
      let c := strLower s
      if c = "false" ∨ c = "no" ∨ c = "off" ∨ c = "0" then some false
      else if c = "true" ∨ c = "yes" ∨ c = "on" ∨ c = "1" then some true
      else Option.none

/-- An optional raw string (e.g. an environment value) as a `PyVal`. -/
def pyOfOptStr : Option String → PyVal
  | Option.none => PyVal.none
  | some s => PyVal.str s

/-- The scan inside `_parse_log_level_sys_args` (`logs.py:268-275`): walk
`sys.argv[1:]`; at every occurrence of `"--log-level"` overwrite `value`
with the following argument, or with `None` when the flag is last. -/
def scanLogLevelArg (argv : List String) : Option String :=
  (List.range argv.length).foldl
    (fun value idx =>
      if 1 ≤ idx ∧ argv.getD idx "" = "--log-level" then
        if idx < argv.length - 1 then some (argv.getD (idx + 1) "") else Option.none
      else value)
    Option.none

/-- `logs.py` `_parse_log_level_sys_args()` (lines 262-276), with the
`LOG_LEVEL_PARSE_SYS_ARGS` environment value and `sys.argv` passed
explicitly. -/
def parseLogLevelSysArgs (parseSysArgsEnv : Option String) (argv : List String) :
    Except String (Option LogLevel) :=
  if parseBoolLogs parseSysArgsEnv = some false then Except.ok Option.none
  else log_level_fn (pyOfOptStr (scanLogLevelArg argv))

/-- `logs.py` `_parse_log_level_environ()` (lines 279-286), with the
`LOG_LEVEL_PARSE_ENVIRON` and `LOG_LEVEL` environment values passed
explicitly. -/
def parseLogLevelEnviron (parseEnvironEnv logLevelEnv : Option String) :
    Except String (Option LogLevel) :=
  if parseBoolLogs parseEnvironEnv = some false then Except.ok Option.none
  else log_level_fn (pyOfOptStr logLevelEnv)

/-- The threshold resolution of `_logging_basic_config` (`logs.py:180-183`):
system arguments first, then the environment, then `LOG_LEVEL_DEFAULT`; a
`ValueError` raised by either parser propagates out of the routine. -/
def resolvedLevelNo (parseSysArgsEnv : Option String) (argv : List String)
    (parseEnvironEnv logLevelEnv : Option String) : Except String Int :=
  match parseLogLevelSysArgs parseSysArgsEnv argv with
  | Except.error e => Except.error e
  | Except.ok (some ll) => Except.ok ll.level
  | Except.ok Option.none =>
    match parseLogLevelEnviron parseEnvironEnv logLevelEnv with
    | Except.error e => Except.error e
    | Except.ok (some ll) => Except.ok ll.level
    | Except.ok Option.none => Except.ok LOG_LEVEL_DEFAULT

/-!
## Default handlers (`logs.py:166-229`)
-/

/-- The two standard streams targeted by `_logging_basic_config`. -/
inductive StreamId where
  | stdout
  | stderr
deriving DecidableEq

/-- The two filter lambdas passed to `_log_handler` (`logs.py:190,196`):
`record.levelno == logging.INFO` and `record.levelno != logging.INFO`. -/
inductive BandFilter where
  | onlyInfo
  | notInfo
deriving DecidableEq

/-- Evaluation of a band filter on a record's `levelno`. -/
def bandFilterEval : BandFilter → Int → Bool
  | BandFilter.onlyInfo, l => l == 20
  | BandFilter.notInfo, l => l != 20

/-- A `logging.StreamHandler` as built by `_log_handler` (`logs.py:207-229`):
a target stream, a format string, and the `_filter` closure capturing
`log_level_no` and the optional `filter_fn`. -/
structure StreamHandler where
  stream : StreamId
  fmt : String
  thr : Int
  filterFn : Option BandFilter
deriving DecidableEq

/-- `logs.py` `_log_handler(log_level_no, stream, log_format, filter_fn)`. -/
def log_handler (logLevelNo : Int) (stream : StreamId) (logFormat : String)
    (filterFn : Option BandFilter) : StreamHandler :=
  ⟨stream, logFormat, logLevelNo, filterFn⟩

/-- The `_filter` closure added to every handler (`logs.py:219-228`): pass a
record iff `levelno >= log_level_no` and, when a custom filter is present,
that filter accepts it. -/
def handlerPasses (h : StreamHandler) (levelno : Int) : Bool :=
  if levelno ≥ h.thr then
    match h.filterFn with
    | Option.none => true
    | some f => bandFilterEval f levelno
  else false

/-- `format_stdout` (`logs.py:176`). -/
def format_stdout : String := "%(message)s"

/-- `format_stderr` (`logs.py:177-179`). -/
def format_stderr : String :=
  "%(asctime)s.%(msecs)03d | %(levelname)s | %(name)s:%(lineno)d - %(message)s"

/-- The `handlers` list built by `_logging_basic_config` (`logs.py:185-198`). -/
def defaultHandlers (logLevelNo : Int) : List StreamHandler :=
  [log_handler logLevelNo StreamId.stdout format_stdout (some BandFilter.onlyInfo),
    log_handler logLevelNo StreamId.stderr format_stderr (some BandFilter.notInfo)]

/-- The stdout sink's band as claim C5 words it: "informational and below". -/
def claimStdoutPasses (thr l : Int) : Bool := (thr ≤ l) && (l ≤ 20)

/-- The stderr sink's band as claim C5 words it: "above informational". -/
def claimStderrPasses (thr l : Int) : Bool := (thr ≤ l) && (20 < l)

/-!
## The logger registry and the lazy wrapper (`logs.py:50-77`, `logs.py:80-127`)

Python object identity is modelled by tagging every allocated logger object
with a fresh natural number; the host `logging.Manager.loggerDict` is an
association list from names to those identities.
-/

/-- The host `logging` manager state: registered loggers by name, plus the
next fresh object identity (modelling Python allocation). -/
structure LoggerHeap where
  registry : List (String × Nat)
  nextId : Nat
deriving DecidableEq

/-- `logging.getLogger(name)`: the registered logger for `name`, creating
and registering a fresh one on a miss. -/
def getLoggerStd (name : String) (h : LoggerHeap) : Nat × LoggerHeap :=
  match h.registry.lookup name with
  | some lid => (lid, h)
  | Option.none => (h.nextId, ⟨(name, h.nextId) :: h.registry, h.nextId + 1⟩)

/-- The handle returned by `logger(...)` (`logs.py:127`) once its name is
resolved: a freshly allocated `_LazyLogger` — `logging.Logger.__init__`
registers nothing — while `_INIT_COMPLETE` is false, and
`logging.getLogger(name)` afterwards. -/
def loggerReturn (name : String) (initComplete : Bool) (h : LoggerHeap) :
    Nat × LoggerHeap :=
  if initComplete then getLoggerStd name h
  else (h.nextId, ⟨h.registry, h.nextId + 1⟩)

/-- The outcome of one `_LazyLogger.handle` call: the error raised if any,
the `_handler` cache afterwards, the value of `_INIT_COMPLETE` afterwards,
the manager heap, and the records forwarded (as pairs of target logger
identity and record). -/
structure HandleOutcome where
  err : Option String
  cache : Option Nat
  initComplete : Bool
  heap : LoggerHeap
  forwarded : List (Nat × PyLogRecord)
deriving DecidableEq

/-- `_LazyLogger.handle(record)` (`logs.py:61-77`) as one sequential call,
for a logger with object identity `selfId`, name `selfName` and `_handler`
cache `cache`. With an empty cache and `_INIT_COMPLETE` false, the init
block runs `_logging_basic_config()` under the lock; `cfg` is that call's
outcome under this process's environment. When it raises (e.g.
`LOG_LEVEL="²"`, see `resolvedLevelNo`), the `with` block releases the
lock, line 72 is skipped — `_INIT_COMPLETE` stays false — and the
exception propagates out of `handle` without forwarding the record.
Otherwise `_INIT_COMPLETE` is set, the logger's own name is looked up with
`logging.getLogger`, `ValueError` is raised when the lookup returns the
logger itself, and the record is forwarded to the cached handler. -/
def lazyHandle (selfId : Nat) (selfName : String) (cache : Option Nat)
    (initComplete : Bool) (cfg : Except String Unit)
    (h : LoggerHeap) (record : PyLogRecord) : HandleOutcome :=
  match cache with
  | some handlerId =>
    ⟨Option.none, some handlerId, initComplete, h, [(handlerId, record)]⟩
  | Option.none =>
    match (if initComplete then Except.ok () else cfg) with
    | Except.error e => ⟨some e, Option.none, initComplete, h, []⟩
    | Except.ok _ =>
      let looked := getLoggerStd selfName h
      if looked.1 = selfId then
        ⟨some ("Logger name registered to self:" ++ selfName), Option.none, true,
          looked.2, []⟩
      else
        ⟨Option.none, some looked.1, true, looked.2, [(looked.1, record)]⟩

/-!
## The root logger's handler list (`logging.basicConfig` semantics)
-/

/-- A handler attached to the root logger: its object identity, plus its
`_log_handler` descriptor when it was built by this library (`none` for an
opaque handler installed by application code). Identities 0 and 1 are
reserved for the two default handlers the initializer allocates. -/
structure RootHandler where
  sid : Nat
  desc : Option StreamHandler
deriving DecidableEq

/-- Whether a handler is one of the two default sinks installed by
`_logging_basic_config` (by object identity). -/
def isDefaultHandler (rh : RootHandler) : Bool := rh.sid == 0 || rh.sid == 1

/-- The root logger's mutable state: attached handlers and effective level. -/
structure RootState where
  handlers : List RootHandler
  level : Int
deriving DecidableEq

/-- Stdlib `logging.basicConfig(level=..., handlers=...)` without `force`
(as called at `logs.py:200-204`): a no-op when the root logger already has
handlers, otherwise install exactly the given handlers and set the level. -/
def basicConfigStd (handlers : List RootHandler) (level : Int) (st : RootState) :
    RootState :=
  if st.handlers.isEmpty then ⟨handlers, level⟩ else st

/-- The two default handlers of `_logging_basic_config` (`logs.py:185-198`)
as root handlers, carrying the reserved identities 0 and 1. -/
def defaultRootHandlers (levelNo : Int) : List RootHandler :=
  [⟨0, some (log_handler levelNo StreamId.stdout format_stdout (some BandFilter.onlyInfo))⟩,
    ⟨1, some (log_handler levelNo StreamId.stderr format_stderr (some BandFilter.notInfo))⟩]

/-- `_logging_basic_config()` (`logs.py:166-204`) as a root-state transform:
resolve the threshold, build the two default handlers, and hand them to
stdlib `basicConfig` (which backs off silently if the application already
configured the root logger). A `ValueError` from level resolution
(`logs.py:180-183`) propagates before `basicConfig` is reached, leaving
the root state untouched. -/
def loggingBasicConfigFn (parseSysArgsEnv : Option String) (argv : List String)
    (parseEnvironEnv logLevelEnv : Option String) (st : RootState) :
    Except String RootState :=
  match resolvedLevelNo parseSysArgsEnv argv parseEnvironEnv logLevelEnv with
  | Except.error e => Except.error e
  | Except.ok levelNo =>
    Except.ok (basicConfigStd (defaultRootHandlers levelNo) levelNo st)

/-!
## The configuration interceptor (spec §4.4 step 3-5 and §4.5)

The repository's interceptor code (`_BASIC_CONFIG_PATCH_CTX` /
`_BASIC_CONFIG_UNPATCH_CTX`, referenced by `tests/test_logs.py`) is not
present under `src/`; the definitions below model it from the spec.
-/

/-- Process-wide state around the interceptor: the root logger, the set of
sink identities recorded by the global initializer, whether the interceptor
currently wraps the configure entry point, and the uninstall gate. -/
structure ProcState where
  root : RootState
  recorded : List RootHandler
  interceptorInstalled : Bool
  uninstallDone : Bool
deriving DecidableEq

/-- Modelled from the spec: steps 3-5 of `trigger_global_init` (§4.4),
which are absent from `src/` (only `tests/test_logs.py` references the
patching contexts). Install the default sinks via `_logging_basic_config`,
record their identities, verify every recorded sink is actually present
post-install, and only on success install the ConfigurationInterceptor;
a failed verification is the silent backoff path (no interceptor). Level
resolution stays code-modelled: its `ValueError` (e.g. `LOG_LEVEL="²"`)
propagates and nothing at all is installed. -/
def triggerGlobalInit (parseSysArgsEnv : Option String) (argv : List String)
    (parseEnvironEnv logLevelEnv : Option String) (st : ProcState) :
    Except String ProcState :=
  match resolvedLevelNo parseSysArgsEnv argv parseEnvironEnv logLevelEnv with
  | Except.error e => Except.error e
  | Except.ok levelNo =>
    let root' := basicConfigStd (defaultRootHandlers levelNo) levelNo st.root
    let installed := defaultRootHandlers levelNo
    Except.ok
      (if installed.all fun rh => root'.handlers.contains rh then
        ⟨root', installed, true, st.uninstallDone⟩
      else
        ⟨root', st.recorded, st.interceptorInstalled, st.uninstallDone⟩)

/-- Modelled from the spec: the ConfigurationInterceptor wrapper (§4.5),
absent from `src/`. On its first invocation it fires the uninstall gate —
removing exactly the recorded default sinks — restores the original entry
point, and forwards the call's arguments unchanged to the original
`basicConfig`; with no interceptor installed the call goes straight to the
original entry point. -/
def configureEntry (userHandlers : List RootHandler) (level : Int)
    (st : ProcState) : ProcState :=
  if st.interceptorInstalled then
    let cleaned : RootState :=
      ⟨st.root.handlers.filter fun rh => !(st.recorded.contains rh), st.root.level⟩
    ⟨basicConfigStd userHandlers level cleaned, st.recorded, false, true⟩
  else
    ⟨basicConfigStd userHandlers level st.root, st.recorded,
      st.interceptorInstalled, st.uninstallDone⟩

/-- The process state before any logging activity: empty root handler list
at the stdlib root level `WARNING`, nothing recorded, no interceptor. -/
def initialProcState : ProcState := ⟨⟨[], 30⟩, [], false, false⟩

/-!
## Logger name inference (`logs.py:80-127`, `logs.py:232-259`)

`pathlib.PurePosixPath` semantics needed by `_parse_logger_name`: `parts`
drops empty and `"."` components, `name` is the final part, `stem` strips
the final part's last suffix (a dot that is neither first nor last).
-/

/-- Split a character list at every occurrence of `sep`. -/
def splitOnSep (sep : Char) (cs : List Char) : List (List Char) :=
  cs.foldr
    (fun ch acc =>
      if ch = sep then [] :: acc
      else
        match acc with
        | g :: rest => (ch :: g) :: rest
        | [] => [[ch]])
    [[]]

/-- `pathlib.Path(s).parts` for a POSIX path (the root aside, which only
ever contributes an empty `parent.name` below, as does its absence). -/
def pathParts (s : String) : List String :=
  ((splitOnSep '/' s.data).map fun g => (⟨g⟩ : String)).filter
    fun c => !(c == "" || c == ".")

/-- The index of the last `'.'` in a character list, if any. -/
def lastDotIdx (cs : List Char) : Option Nat :=
  ((List.range cs.length).filter fun i => cs.getD i ' ' = '.').getLast?

/-- `pathlib` `stem` of a single path component: strip the last suffix,
where a suffix starts at a dot that is neither the first nor the last
character. -/
def pyStem (component : String) : String :=
  let cs := component.data
  match lastDotIdx cs with
  | some i => if 0 < i ∧ i < cs.length - 1 then ⟨cs.take i⟩ else component
  | Option.none => component

/-- `_parse_logger_name(value)` (`logs.py:232-259`) on a string: reject
`"__main__"` and the empty string; transform a name ending in `".py"` into
`parent.stem` with spaces replaced by underscores; return anything else
verbatim. (`pathlib.Path(name)` cannot raise for a `str`, so the
`except` fallback at lines 250-251 is dead for these inputs.) -/
def parseLoggerNameStr (value : String) : Option String :=
  if value = "__main__" then Option.none
  else if value = "" then Option.none
  else if strEndsWith value ".py" then
    let finalPart := (pathParts value).getLast?.getD ""
    let stem := pyStem finalPart
    if stem ≠ "" then
      let parentName := ((pathParts value).dropLast.getLast?).getD ""
      let joined := if parentName ≠ "" then parentName ++ "." ++ stem else stem
      some (replaceSpaces joined)
    else some value
  else some value

/-- `_parse_logger_name(value)` on an arbitrary candidate: `None` is
rejected; a non-string is stringified (so never `"__main__"`, never empty,
never `".py"`-suffixed for the `int` and record reprs that can occur). -/
def parseLoggerName : PyVal → Option String
  | PyVal.none => Option.none
  | PyVal.int n => some (toString n)
  | PyVal.record r => some (pyStrRecord r)
  | PyVal.str s => parseLoggerNameStr s

/-- The caller-frame attributes `logger()` inspects (`logs.py:108-119`),
each `None` when absent or not a string (`_frame_attribute`,
`logs.py:309-325`). -/
structure CallSite where
  selfClassName : Option String
  clsName : Option String
  coFilename : Option String
deriving DecidableEq

/-- The candidate loop at `logs.py:100-102`: the first candidate whose
parse is truthy (non-`None` and nonempty). -/
def firstParsedName : List PyVal → Option String
  | [] => Option.none
  | v :: rest =>
    match parseLoggerName v with
    | some s => if s = "" then firstParsedName rest else some s
    | Option.none => firstParsedName rest

/-- Python truthiness of an optional string: `None` and `""` are falsy. -/
def truthyOpt : Option String → Option String
  | Option.none => Option.none
  | some s => if s = "" then Option.none else some s

/-- The full name inference of `logger()` (`logs.py:98-126`): explicit
candidates, then the instance's class name, then the enclosing class name,
then the caller's source file name parsed as a path, then the module name
`"lfp_logging.logs"` (`__name__` of the defining module). -/
def loggerInferName (names : List PyVal) (cs : CallSite) : String :=
  match firstParsedName names with
  | some s => s
  | Option.none =>
    match truthyOpt cs.selfClassName with
    | some c => c
    | Option.none =>
      match truthyOpt cs.clsName with
      | some c => c
      | Option.none =>
        let fromFile :=
          match cs.coFilename with
          | some f => parseLoggerNameStr f
          | Option.none => Option.none
        match truthyOpt fromFile with
        | some s => s
        | Option.none => "lfp_logging.logs"

/-!
## Color resolution (`config.py:41-141`)
-/

/-- Python whitespace for `str.strip()` (the characters that can occur in
the environment values modelled here). -/
def isPySpace (c : Char) : Bool := c = ' ' ∨ c = '\t' ∨ c = '\n' ∨ c = '\r'

/-- Python `value.strip()`. -/
def pyStrip (s : String) : String :=
  ⟨((s.data.dropWhile isPySpace).reverse.dropWhile isPySpace).reverse⟩

/-- `config.py` `_env_value(name)` (lines 137-141): fetch, strip, and
normalize the empty string to `None`. -/
def envValue (env : String → Option String) (name : String) : Option String :=
  match env name with
  | Option.none => Option.none
  | some v =>
    let s := pyStrip v
    if s = "" then Option.none else some s

/-- The ambient facts `_supports_color` / `_os_supports_color` consult
besides environment variables: the stream's `isatty()` result (`false` also
covering a raising `isatty`), whether `os.name == "nt"`, and whether any of
the Windows ANSI marker variables is present. -/
structure ColorEnv where
  env : String → Option String
  isatty : Bool
  osIsWindows : Bool
  windowsAnsiVar : Bool

/-- The `TERM` prefixes `_os_supports_color` accepts (`config.py:121-133`). -/
def colorTerms : List String :=
  ["xterm", "xterm-color", "xterm-256color", "screen", "screen-256color",
    "tmux", "tmux-256color", "rxvt-unicode", "rxvt-unicode-256color", "linux"]

/-- `config.py` `_os_supports_color()` (lines 101-134). -/
def osSupportsColor (ce : ColorEnv) : Bool :=
  match envValue ce.env "TERM" with
  | Option.none => false
  | some term =>
    if term = "dumb" then false
    else
      let ci := envValue ce.env "CI"
      if ci = some "GITHUB_ACTIONS" ∨ ci = some "GITLAB_CI" ∨ ci = some "COLORTERM" then
        false
      else if ce.osIsWindows then ce.windowsAnsiVar
      else if envValue ce.env "COLORTERM" ≠ Option.none then true
      else colorTerms.any fun t => t.data.isPrefixOf term.data

/-- `config.py` `_supports_color(stream)` (lines 74-98): a TTY falls
through to the OS check; a non-TTY is accepted for the VS Code, PyCharm and
Codespaces identifiers, then also falls through to the OS check. -/
def supportsColor (ce : ColorEnv) : Bool :=
  if ce.isatty then osSupportsColor ce
  else if envValue ce.env "TERM_PROGRAM" = some "vscode" then true
  else if envValue ce.env "PYCHARM_HOSTED" = some "1" then true
  else if envValue ce.env "CODESPACES" = some "true" then true
  else osSupportsColor ce

/-- `config.py` `_LOG_LEVEL_COLORS` (lines 42-49), keyed by level name. -/
def logLevelColors (name : String) : Option String :=
  if name = "TRACE" then some "\x1b[90m"
  else if name = "DEBUG" then some "\x1b[36m"
  else if name = "INFO" then some "\x1b[38;5;244m"
  else if name = "WARNING" then some "\x1b[33m"
  else if name = "ERROR" then some "\x1b[31m"
  else if name = "CRITICAL" then some "\x1b[1;31m"
  else Option.none

/-- `config.py` `color(stream, record)` (lines 52-71): bail out on an
unsupported stream; resolve the record's level via
`log_level.get(record, None)`; then per-level override, global override,
built-in table. The record itself — not its `levelno` — is handed to the
level parser. -/
def color_fn (ce : ColorEnv) (record : PyLogRecord) : Option String :=
  if !supportsColor ce then Option.none
  else
    match log_level_get (PyVal.record record) GetDefault.noneDefault with
    | Except.ok (some levelObj) =>
      match envValue ce.env ("LOG_FORMAT_COLOR_" ++ strUpper levelObj.name) with
      | some c => some c
      | Option.none =>
        match envValue ce.env "LOG_FORMAT_COLOR" with
        | some c => some c
        | Option.none => logLevelColors levelObj.name
    | _ => Option.none

/-- A concrete environment for the C9 failing input: a color-capable
terminal with the per-level override `LOG_FORMAT_COLOR_INFO` set. -/
def c9Env : String → Option String := fun n =>
  if n = "TERM" then some "xterm-256color"
  else if n = "LOG_FORMAT_COLOR_INFO" then some "\x1b[35m"
  else Option.none

/-!
## The one-shot initialization gate (`logs.py:29-30`, `logs.py:66-72`)

The double-checked locking in `_LazyLogger.handle` is modelled as a
small-step transition system over unboundedly many threads — one per
in-flight `handle` call, across any number of channels, all sharing the
globals `_INIT_COMPLETE` and `_INIT_LOCK`. Each step is one
bytecode-atomic access to the shared state.
-/

/-- A thread's position inside the init block of `handle`: the unlocked
read of `_INIT_COMPLETE` (line 68), the lock acquisition (line 69), the
guarded re-read (line 70), the `_logging_basic_config()` call (line 71),
the write `_INIT_COMPLETE = True` (line 72), the lock release, the code
after the block, and — when `_logging_basic_config` raises — the release
performed by the unwinding `with` block and the aborted call. -/
inductive GatePC where
  | checkFast
  | acquire
  | recheck
  | runCfg
  | setFlag
  | release
  | post
  | releaseFail
  | failed
deriving DecidableEq

/-- The process-wide state: every thread's position, the lock holder, the
`_INIT_COMPLETE` flag, the number of completed (non-raising)
`_logging_basic_config` executions, and the number of times the routine
was invoked at all (completions plus aborted runs). -/
structure GateState where
  pcs : Nat → GatePC
  lock : Option Nat
  initComplete : Bool
  configRuns : Nat
  configAttempts : Nat

/-- Update one thread's position. -/
def setPC (pcs : Nat → GatePC) (i : Nat) (p : GatePC) : Nat → GatePC :=
  fun j => if j = i then p else pcs j

/-- One interleaved step of the init block by some thread `i`. The
parameter `cfgFails` is fixed per process: whether `_logging_basic_config`
raises under this process's environment (true for e.g. `LOG_LEVEL="²"`,
whose level resolution raises `ValueError` — see
`init_level_resolution_raises_on_superscript`). A raising run increments
only the invocation counter and skips the `_INIT_COMPLETE` write; the
unwinding `with` block then releases the lock while the exception
propagates out of `handle`. -/
inductive GateStep (cfgFails : Bool) : GateState → GateState → Prop
  | fastDone (s : GateState) (i : Nat) (hpc : s.pcs i = GatePC.checkFast)
      (hic : s.initComplete = true) :
      GateStep cfgFails s
        ⟨setPC s.pcs i GatePC.post, s.lock, s.initComplete, s.configRuns,
          s.configAttempts⟩
  | fastMiss (s : GateState) (i : Nat) (hpc : s.pcs i = GatePC.checkFast)
      (hic : s.initComplete = false) :
      GateStep cfgFails s
        ⟨setPC s.pcs i GatePC.acquire, s.lock, s.initComplete, s.configRuns,
          s.configAttempts⟩
  | acquire (s : GateState) (i : Nat) (hpc : s.pcs i = GatePC.acquire)
      (hl : s.lock = Option.none) :
      GateStep cfgFails s
        ⟨setPC s.pcs i GatePC.recheck, some i, s.initComplete, s.configRuns,
          s.configAttempts⟩
  | recheckDone (s : GateState) (i : Nat) (hpc : s.pcs i = GatePC.recheck)
      (hic : s.initComplete = true) :
      GateStep cfgFails s
        ⟨setPC s.pcs i GatePC.release, s.lock, s.initComplete, s.configRuns,
          s.configAttempts⟩
  | recheckRun (s : GateState) (i : Nat) (hpc : s.pcs i = GatePC.recheck)
      (hic : s.initComplete = false) :
      GateStep cfgFails s
        ⟨setPC s.pcs i GatePC.runCfg, s.lock, s.initComplete, s.configRuns,
          s.configAttempts⟩
  | runConfigOk (s : GateState) (i : Nat) (hpc : s.pcs i = GatePC.runCfg)
      (hok : cfgFails = false) :
      GateStep cfgFails s
        ⟨setPC s.pcs i GatePC.setFlag, s.lock, s.initComplete, s.configRuns + 1,
          s.configAttempts + 1⟩
  | runConfigFail (s : GateState) (i : Nat) (hpc : s.pcs i = GatePC.runCfg)
      (hfail : cfgFails = true) :
      GateStep cfgFails s
        ⟨setPC s.pcs i GatePC.releaseFail, s.lock, s.initComplete, s.configRuns,
          s.configAttempts + 1⟩
  | setDone (s : GateState) (i : Nat) (hpc : s.pcs i = GatePC.setFlag) :
      GateStep cfgFails s
        ⟨setPC s.pcs i GatePC.release, s.lock, true, s.configRuns, s.configAttempts⟩
  | unlock (s : GateState) (i : Nat) (hpc : s.pcs i = GatePC.release) :
      GateStep cfgFails s
        ⟨setPC s.pcs i GatePC.post, Option.none, s.initComplete, s.configRuns,
          s.configAttempts⟩
  | unlockFail (s : GateState) (i : Nat) (hpc : s.pcs i = GatePC.releaseFail) :
      GateStep cfgFails s
        ⟨setPC s.pcs i GatePC.failed, Option.none, s.initComplete, s.configRuns,
          s.configAttempts⟩

/-- The process state before any `handle` call: every thread ahead of the
unlocked check, lock free, `_INIT_COMPLETE = False`, zero runs. -/
def gateInit : GateState := ⟨fun _ => GatePC.checkFast, Option.none, false, 0, 0⟩

/-- States reachable from process start by interleaved `handle` calls. -/
inductive GateReachable (cfgFails : Bool) : GateState → Prop
  | init : GateReachable cfgFails gateInit
  | step (s s' : GateState) (h : GateReachable cfgFails s)
      (hs : GateStep cfgFails s s') : GateReachable cfgFails s'

/-- Positions a thread can only occupy while holding `_INIT_LOCK`. -/
def holdsLock (p : GatePC) : Prop :=
  p = GatePC.recheck ∨ p = GatePC.runCfg ∨ p = GatePC.setFlag ∨ p = GatePC.release ∨
    p = GatePC.releaseFail

/-- The inductive invariant of the gate, over the state's components. -/
structure GateInvC (pcs : Nat → GatePC) (lock : Option Nat) (ic : Bool)
    (runs : Nat) : Prop where
  runsLe : runs ≤ 1
  icRuns : ic = true → runs = 1
  midRun : runs = 1 → ic = false → ∃ i, lock = some i ∧ pcs i = GatePC.setFlag
  held : ∀ i, holdsLock (pcs i) → lock = some i
  runZero : ∀ i, pcs i = GatePC.runCfg → runs = 0 ∧ ic = false
  flagRuns : ∀ i, pcs i = GatePC.setFlag → runs = 1 ∧ ic = false
  relIC : ∀ i, pcs i = GatePC.release → ic = true
  postIC : ∀ i, pcs i = GatePC.post → ic = true

/-- The invariant of a state. -/
def GateInv (s : GateState) : Prop :=
  GateInvC s.pcs s.lock s.initComplete s.configRuns

/-!
## Theorems
-/

/-- Counterexample to C5: with the threshold resolved to `DEBUG = 10`, a
`DEBUG` record is rejected by the stdout handler and accepted by the stderr
handler — the opposite of the claim's "informational and below" / "above
informational" bands, which place a below-informational record on stdout. -/
theorem default_handler_band_counterexample :
    ((defaultHandlers 10).map fun h => handlerPasses h 10) = [false, true] ∧
    claimStdoutPasses 10 10 = true ∧ claimStderrPasses 10 10 = false := by
  decide

/-- C5 amended: `_logging_basic_config` installs exactly two handlers — one
on stdout whose filter passes a record iff its severity is at least the
resolved threshold and is exactly informational (`levelno == INFO`), and one
on stderr whose filter passes iff the severity is at least the threshold and
is anything other than informational — each with its own distinct format. -/
theorem default_handlers_spec (thr l : Int) :
    ∃ hOut hErr : StreamHandler,
      defaultHandlers thr = [hOut, hErr] ∧
      hOut.stream = StreamId.stdout ∧ hOut.fmt = format_stdout ∧
      hErr.stream = StreamId.stderr ∧ hErr.fmt = format_stderr ∧
      format_stdout ≠ format_stderr ∧
      (handlerPasses hOut l = true ↔ thr ≤ l ∧ l = 20) ∧
      (handlerPasses hErr l = true ↔ thr ≤ l ∧ l ≠ 20) := by
  refine ⟨_, _, rfl, rfl, rfl, rfl, rfl, by decide, ?_, ?_⟩
  · show handlerPasses (log_handler thr StreamId.stdout format_stdout
      (some BandFilter.onlyInfo)) l = true ↔ thr ≤ l ∧ l = 20
    unfold handlerPasses log_handler bandFilterEval
    by_cases hl : l ≥ thr
    · simp [hl]
    · simp [hl]
  · show handlerPasses (log_handler thr StreamId.stderr format_stderr
      (some BandFilter.notInfo)) l = true ↔ thr ≤ l ∧ l ≠ 20
    unfold handlerPasses log_handler bandFilterEval
    by_cases hl : l ≥ thr
    · simp [hl]
    · simp [hl]

/-- Counterexample to C4: before global initialization has completed,
`logger("app")` called twice returns two distinct `_LazyLogger` objects
(identities 0 and 1 from the empty heap), not the identical handle. -/
theorem logger_pre_init_distinct_counterexample :
    (loggerReturn "app" false ⟨[], 0⟩).1 = 0 ∧
    (loggerReturn "app" false (loggerReturn "app" false ⟨[], 0⟩).2).1 = 1 ∧
    (0 : Nat) ≠ 1 := by
  decide

/-- C4 amended: once `_INIT_COMPLETE` is true, requesting the same name
twice returns the identical handle (the `logging.getLogger` registry entry);
before completion, each request allocates a fresh `_LazyLogger` wrapper, so
the two handles are distinct. -/
theorem logger_idempotent_after_init (name : String) (h : LoggerHeap) :
    (loggerReturn name true (loggerReturn name true h).2).1 =
      (loggerReturn name true h).1 ∧
    (loggerReturn name false (loggerReturn name false h).2).1 ≠
      (loggerReturn name false h).1 := by
  constructor
  · unfold loggerReturn getLoggerStd
    cases hr : h.registry.lookup name with
    | some lid => simp [hr]
    | none => simp [hr, List.lookup]
  · unfold loggerReturn
    simp

/-- Counterexample to C8: the claim's shape `"pkg/sub/mod.ext"` is not
transformed at all — only names ending in `".py"` are — so the candidate is
used verbatim instead of yielding `"sub.mod"`. -/
theorem parse_logger_name_ext_counterexample :
    parseLoggerNameStr "pkg/sub/mod.ext" = some "pkg/sub/mod.ext" ∧
    some ("pkg/sub/mod.ext" : String) ≠ some ("sub.mod" : String) := by
  decide

/-- C8 amended: name inference tries explicit candidates first (skipping
`None`, empty, and `"__main__"`), then the instance type name, then the
enclosing type name, then a source-file-derived name, then the fixed
fallback `"lfp_logging.logs"`; and a candidate ending in `".py"` of shape
`"pkg/sub/mod.py"` yields `"sub.mod"` (immediate parent directory joined to
the file stem by a dot, with spaces — not all non-alphanumerics — replaced
by underscores), while candidates with any other extension are used
verbatim. -/
theorem infer_name_order_spec :
    (∀ (names : List PyVal) (cs : CallSite) (s : String),
      firstParsedName names = some s → loggerInferName names cs = s) ∧
    (∀ (names : List PyVal) (cs : CallSite) (c : String),
      firstParsedName names = Option.none → truthyOpt cs.selfClassName = some c →
      loggerInferName names cs = c) ∧
    (∀ (names : List PyVal) (cs : CallSite) (c : String),
      firstParsedName names = Option.none → truthyOpt cs.selfClassName = Option.none →
      truthyOpt cs.clsName = some c → loggerInferName names cs = c) ∧
    (∀ (names : List PyVal) (cs : CallSite) (f s : String),
      firstParsedName names = Option.none → truthyOpt cs.selfClassName = Option.none →
      truthyOpt cs.clsName = Option.none → cs.coFilename = some f →
      parseLoggerNameStr f = some s → s ≠ "" → loggerInferName names cs = s) ∧
    (∀ (names : List PyVal) (cs : CallSite),
      firstParsedName names = Option.none → truthyOpt cs.selfClassName = Option.none →
      truthyOpt cs.clsName = Option.none → cs.coFilename = Option.none →
      loggerInferName names cs = "lfp_logging.logs") ∧
    (parseLoggerName PyVal.none = Option.none ∧
      parseLoggerNameStr "" = Option.none ∧
      parseLoggerNameStr "__main__" = Option.none) ∧
    parseLoggerNameStr "pkg/sub/mod.py" = some "sub.mod" := by
  refine ⟨?_, ?_, ?_, ?_, ?_, by decide, by decide⟩
  · intro names cs s h
    unfold loggerInferName
    rw [h]
  · intro names cs c h1 h2
    unfold loggerInferName
    rw [h1, h2]
  · intro names cs c h1 h2 h3
    unfold loggerInferName
    rw [h1, h2, h3]
  · intro names cs f s h1 h2 h3 h4 h5 h6
    unfold loggerInferName
    rw [h1, h2, h3, h4]
    show (match truthyOpt (parseLoggerNameStr f) with
      | some s => s
      | Option.none => "lfp_logging.logs") = s
    rw [h5]
    simp [truthyOpt, h6]
  · intro names cs h1 h2 h3 h4
    unfold loggerInferName
    rw [h1, h2, h3, h4]
    rfl

/-- Witness for C8's amended theorem at concrete inputs. -/
theorem infer_name_order_spec_witness :
    loggerInferName [PyVal.str "pkg/sub/mod.py"]
        ⟨Option.none, Option.none, Option.none⟩ = "sub.mod" ∧
    loggerInferName [PyVal.none, PyVal.str "__main__"]
        ⟨some "SampleClass", Option.none, Option.none⟩ = "SampleClass" ∧
    loggerInferName [] ⟨Option.none, some "Meta", Option.none⟩ = "Meta" ∧
    loggerInferName [] ⟨Option.none, Option.none, some "tests/test_logs.py"⟩ =
      "tests.test_logs" ∧
    loggerInferName [] ⟨Option.none, Option.none, Option.none⟩ = "lfp_logging.logs" :=
  ⟨infer_name_order_spec.1 _ _ _ (by decide),
    infer_name_order_spec.2.1 _ _ _ (by decide) (by decide),
    infer_name_order_spec.2.2.1 _ _ _ (by decide) (by decide) (by decide),
    infer_name_order_spec.2.2.2.1 _ _ "tests/test_logs.py" _ (by decide) (by decide)
      (by decide) rfl (by decide) (by decide),
    infer_name_order_spec.2.2.2.2.1 _ _ (by decide) (by decide) (by decide) rfl⟩

/-- C9 failing input, evaluated: on a stream that supports color, with the
per-level override set and an informational record, `color` returns `None`
— not the override, not the global override, not the built-in INFO color —
because `color` hands the whole `LogRecord` object to `log_level.get`,
whose `str(record)` form (`"<LogRecord: ...>"`) never resolves to a level,
so the documented precedence (docstring, `config.py:55-59`) is
unreachable. The stream-capability gate itself behaves as claimed. -/
theorem color_dead_level_resolution :
    supportsColor ⟨c9Env, true, false, false⟩ = true ∧
    color_fn ⟨c9Env, true, false, false⟩ ⟨"app", 20, "x.py", 1, "hi"⟩ = Option.none ∧
    envValue c9Env ("LOG_FORMAT_COLOR_" ++ strUpper "INFO") = some "\x1b[35m" ∧
    logLevelColors "INFO" = some "\x1b[38;5;244m" ∧
    color_fn ⟨fun _ => Option.none, false, false, false⟩ ⟨"app", 20, "x.py", 1, "hi"⟩ =
      Option.none := by
  decide

theorem setPC_self (pcs : Nat → GatePC) (i : Nat) (p : GatePC) :
    setPC pcs i p i = p := by
  simp [setPC]

theorem setPC_ne (pcs : Nat → GatePC) (i j : Nat) (p : GatePC) (h : j ≠ i) :
    setPC pcs i p j = pcs j := by
  simp [setPC, h]


/-- Counterexample to C10 as stated: the superscript digit string `"²"` is
`isdigit`-true but not a valid decimal literal, so `int(level_name)` raises
`ValueError` before the default is consulted — `get("²", None)` raises
instead of returning `None`, and `get("²", "WARN")` raises instead of
resolving the default. -/
theorem log_level_get_digit_raise_counterexample :
    log_level_get (PyVal.str "²") GetDefault.noneDefault =
      Except.error "invalid literal for int() with base 10: ²" ∧
    log_level_get (PyVal.str "²") (GetDefault.strDefault "WARN") =
      Except.error "invalid literal for int() with base 10: ²" ∧
    pyIsDigit (strUpper "²") = true := by
  decide

/-- C10 amended: `log_level.get(value)` without an explicit default raises
`ValueError` for every input whose resolution yields no level; it returns
`None` exactly when resolution yields no level and the caller explicitly
passed `None` as the default; an unresolved value with a provided default
resolves that default recursively (raising if the default itself is
unresolvable); a resolved value ignores the default — except that a value
whose uppercasing is `isdigit`-true but not a valid decimal int literal
(e.g. `"²"`) makes `int(level_name)` raise before the default is
consulted, so that `ValueError` propagates on every call, regardless of
the default. -/
theorem log_level_get_default_semantics :
    (∀ v : PyVal, log_level_fn v = Except.ok Option.none →
      log_level_get v GetDefault.unset = Except.error "LogLevel not found") ∧
    (∀ (v : PyVal) (d : GetDefault),
      log_level_get v d = Except.ok Option.none ↔
        (log_level_fn v = Except.ok Option.none ∧ d = GetDefault.noneDefault)) ∧
    (∀ (v : PyVal) (s : String), log_level_fn v = Except.ok Option.none →
      log_level_get v (GetDefault.strDefault s) =
        log_level_get (PyVal.str s) GetDefault.unset) ∧
    (∀ (v : PyVal) (n : Int), log_level_fn v = Except.ok Option.none →
      log_level_get v (GetDefault.intDefault n) =
        log_level_get (PyVal.int n) GetDefault.unset) ∧
    (∀ (v : PyVal) (ll : LogLevel), log_level_fn v = Except.ok (some ll) →
      ∀ d : GetDefault, log_level_get v d = Except.ok (some ll)) ∧
    (∀ (v : PyVal) (e : String), log_level_fn v = Except.error e →
      ∀ d : GetDefault, log_level_get v d = Except.error e) := by
  refine ⟨?_, ?_, ?_, ?_, ?_, ?_⟩
  · intro v hv
    unfold log_level_get
    rw [hv]
  · intro v d
    unfold log_level_get
    cases hv : log_level_fn v with
    | error e => simp
    | ok o =>
      cases o with
      | some ll => simp
      | none =>
        cases d with
        | unset => simp
        | noneDefault => simp [hv]
        | strDefault s =>
          cases hss : log_level_fn (PyVal.str s) with
          | error e => simp [hss]
          | ok o => cases o <;> simp [hss]
        | intDefault n =>
          cases hnn : log_level_fn (PyVal.int n) with
          | error e => simp [hnn]
          | ok o => cases o <;> simp [hnn]
  · intro v s hv
    unfold log_level_get
    rw [hv]
  · intro v n hv
    unfold log_level_get
    rw [hv]
  · intro v ll hv d
    unfold log_level_get
    rw [hv]
  · intro v e hv d
    unfold log_level_get
    rw [hv]

/-- Witness for C10's amended theorem at concrete inputs. -/
theorem log_level_get_default_semantics_witness :
    log_level_get (PyVal.str "INVALID") GetDefault.unset =
        Except.error "LogLevel not found" ∧
    log_level_get (PyVal.str "INVALID") GetDefault.noneDefault = Except.ok Option.none ∧
    log_level_get (PyVal.str "INVALID") (GetDefault.strDefault "WARN") =
        log_level_get (PyVal.str "WARN") GetDefault.unset ∧
    log_level_get (PyVal.int 20) GetDefault.unset = Except.ok (some ⟨"INFO", 20⟩) ∧
    log_level_get (PyVal.str "²") GetDefault.unset =
        Except.error "invalid literal for int() with base 10: ²" :=
  ⟨log_level_get_default_semantics.1 _ (by decide),
    (log_level_get_default_semantics.2.1 _ _).mpr ⟨by decide, rfl⟩,
    log_level_get_default_semantics.2.2.1 _ "WARN" (by decide),
    log_level_get_default_semantics.2.2.2.2.1 _ ⟨"INFO", 20⟩ (by decide) _,
    log_level_get_default_semantics.2.2.2.2.2 _ _ (by decide) _⟩

/-- C6 failing input evaluated: `LOG_LEVEL="²"` — accepted by `str.isdigit`
but rejected by `int()` — makes level resolution raise `ValueError` out of
`_logging_basic_config` instead of yielding `None` and falling back; an
ordinary malformed value such as `"INVALID"` does parse to `None` and fall
back to `logging.INFO = 20` as the claim describes. -/
theorem init_level_resolution_raises_on_superscript :
    pyIsDigit (strUpper "²") = true ∧
    log_level_fn (PyVal.str "²") =
      Except.error "invalid literal for int() with base 10: ²" ∧
    resolvedLevelNo Option.none ["prog"] Option.none (some "²") =
      Except.error "invalid literal for int() with base 10: ²" ∧
    log_level_fn (PyVal.str "INVALID") = Except.ok Option.none ∧
    resolvedLevelNo Option.none ["prog"] Option.none (some "INVALID") =
      Except.ok LOG_LEVEL_DEFAULT ∧
    LOG_LEVEL_DEFAULT = 20 := by
  decide

/-- Counterexample to C3 as stated: even with a pre-existing explicit
configuration, `LOG_LEVEL="²"` makes channel activation raise `ValueError`
out of level resolution (`logs.py:180-183` run before the `basicConfig`
no-op at line 200) — the backoff is not silent. -/
theorem configure_first_raise_counterexample :
    loggingBasicConfigFn Option.none ["prog"] Option.none (some "²")
        ⟨[⟨7, Option.none⟩], 40⟩ =
      Except.error "invalid literal for int() with base 10: ²" := by
  decide

/-- C3 amended: if the application configured the root logger before any
channel was used (its handler list is nonempty), then whenever level
resolution succeeds, channel activation's `_logging_basic_config` returns
the root state exactly as it was — silent backoff, zero default sinks
installed; when level resolution raises (e.g. `LOG_LEVEL="²"`), that
exception propagates — so activation is not silent — but the root state is
still untouched and no default sink is installed either. -/
theorem configure_first_backoff (parseSysArgsEnv : Option String)
    (argv : List String) (parseEnvironEnv logLevelEnv : Option String)
    (st : RootState) (hne : st.handlers ≠ []) :
    (∀ lvl : Int,
      resolvedLevelNo parseSysArgsEnv argv parseEnvironEnv logLevelEnv =
        Except.ok lvl →
      loggingBasicConfigFn parseSysArgsEnv argv parseEnvironEnv logLevelEnv st =
        Except.ok st ∧
      ((∀ rh ∈ st.handlers, isDefaultHandler rh = false) →
        st.handlers.countP isDefaultHandler = 0)) ∧
    (∀ e : String,
      resolvedLevelNo parseSysArgsEnv argv parseEnvironEnv logLevelEnv =
        Except.error e →
      loggingBasicConfigFn parseSysArgsEnv argv parseEnvironEnv logLevelEnv st =
        Except.error e) := by
  have hemp : st.handlers.isEmpty = false := by
    cases hh : st.handlers with
    | nil => exact absurd hh hne
    | cons a l => simp
  constructor
  · intro lvl hres
    constructor
    · unfold loggingBasicConfigFn
      rw [hres]
      simp [basicConfigStd, hemp]
    · intro hall
      exact List.countP_eq_zero.mpr fun a ha => by simp [hall a ha]
  · intro e hres
    unfold loggingBasicConfigFn
    rw [hres]

/-- Witness for C3's amended theorem at a concrete input: a root logger
holding one opaque application handler (identity 7) is left untouched,
with zero default sinks, under an empty environment. -/
theorem configure_first_backoff_witness :
    loggingBasicConfigFn Option.none ["prog"] Option.none Option.none
        ⟨[⟨7, Option.none⟩], 40⟩ = Except.ok ⟨[⟨7, Option.none⟩], 40⟩ ∧
    (⟨[⟨7, Option.none⟩], 40⟩ : RootState).handlers.countP isDefaultHandler = 0 :=
  have hcb := configure_first_backoff Option.none ["prog"] Option.none Option.none
    ⟨[⟨7, Option.none⟩], 40⟩ (by decide)
  have h1 := hcb.1 LOG_LEVEL_DEFAULT (by decide)
  ⟨h1.1, h1.2 (by decide)⟩

/-- Counterexample to C2 as stated: with `LOG_LEVEL="²"`, channel
activation raises `ValueError` during level resolution and installs
nothing — "activation fires, installing the default sinks" does not hold
for every environment. -/
theorem trigger_global_init_raise_counterexample :
    triggerGlobalInit Option.none ["prog"] Option.none (some "²") initialProcState =
      Except.error "invalid literal for int() with base 10: ²" := by
  decide

/-- C2 amended (interceptor modelled from the spec): whenever level
resolution succeeds, using a channel first installs the default sinks and
the interceptor, and a later configure call removes the default sinks
before the user's configuration is applied, leaving exactly the
user-supplied sinks installed and zero default sinks afterward; when level
resolution raises (e.g. `LOG_LEVEL="²"`), activation errors out and
installs nothing at all. -/
theorem configure_after_activation_removes_defaults
    (parseSysArgsEnv : Option String) (argv : List String)
    (parseEnvironEnv logLevelEnv : Option String)
    (userHandlers : List RootHandler) (level lvl : Int)
    (hres : resolvedLevelNo parseSysArgsEnv argv parseEnvironEnv logLevelEnv =
      Except.ok lvl)
    (huser : ∀ rh ∈ userHandlers, isDefaultHandler rh = false) :
    triggerGlobalInit parseSysArgsEnv argv parseEnvironEnv logLevelEnv
        initialProcState =
      Except.ok ⟨⟨defaultRootHandlers lvl, lvl⟩, defaultRootHandlers lvl, true, false⟩ ∧
    (configureEntry userHandlers level
        ⟨⟨defaultRootHandlers lvl, lvl⟩, defaultRootHandlers lvl, true,
          false⟩).root.handlers = userHandlers ∧
    ((configureEntry userHandlers level
        ⟨⟨defaultRootHandlers lvl, lvl⟩, defaultRootHandlers lvl, true,
          false⟩).root.handlers.countP isDefaultHandler) = 0 := by
  have hconf : configureEntry userHandlers level
      ⟨⟨defaultRootHandlers lvl, lvl⟩, defaultRootHandlers lvl, true, false⟩ =
      ⟨⟨userHandlers, level⟩, defaultRootHandlers lvl, false, true⟩ := by
    unfold configureEntry basicConfigStd
    simp [List.filter_eq_nil_iff]
  refine ⟨?_, by rw [hconf], ?_⟩
  · unfold triggerGlobalInit
    rw [hres]
    unfold initialProcState basicConfigStd defaultRootHandlers
    simp [List.contains_cons]
  · rw [hconf]
    exact List.countP_eq_zero.mpr fun a ha => by simp [huser a ha]

/-- Witness for C2's amended theorem at concrete inputs: an empty
environment resolves to the default threshold 20; one opaque user handler
with identity 7. -/
theorem configure_after_activation_removes_defaults_witness :
    (configureEntry [⟨7, Option.none⟩] 40
        ⟨⟨defaultRootHandlers 20, 20⟩, defaultRootHandlers 20, true,
          false⟩).root.handlers = [⟨7, Option.none⟩] ∧
    ((configureEntry [⟨7, Option.none⟩] 40
        ⟨⟨defaultRootHandlers 20, 20⟩, defaultRootHandlers 20, true,
          false⟩).root.handlers.countP isDefaultHandler) = 0 :=
  have h := configure_after_activation_removes_defaults Option.none ["prog"]
    Option.none Option.none [⟨7, Option.none⟩] 40 20 (by decide) (by decide)
  ⟨h.2.1, h.2.2⟩

/-- Counterexample to C7 as stated: under `LOG_LEVEL="²"` the first
`handle` call raises `ValueError` out of the init block although the
registry lookup of the channel's own name would not return the channel
itself — self-registration is not the single condition surfaced as an
error, though the record is still not forwarded. -/
theorem handle_init_raise_counterexample :
    (lazyHandle 5 "app" Option.none false
        (Except.error "invalid literal for int() with base 10: ²") ⟨[], 0⟩
        ⟨"app", 20, "x.py", 1, "hi"⟩).err =
      some "invalid literal for int() with base 10: ²" ∧
    (getLoggerStd "app" ⟨[], 0⟩).1 ≠ 5 ∧
    (lazyHandle 5 "app" Option.none false
        (Except.error "invalid literal for int() with base 10: ²") ⟨[], 0⟩
        ⟨"app", 20, "x.py", 1, "hi"⟩).forwarded = [] ∧
    resolvedLevelNo Option.none ["prog"] Option.none (some "²") =
      Except.error "invalid literal for int() with base 10: ²" := by
  decide

/-- C7 amended: when the init block cannot raise — `_INIT_COMPLETE` already
true, or `_logging_basic_config` returning normally — `handle` raises
exactly when `logging.getLogger` of the channel's own name returns the
channel object itself, and on every raising path the record is not
forwarded; when `_logging_basic_config` raises, `handle` propagates that
error, forwards nothing, and leaves `_INIT_COMPLETE` false; a call with a
populated `_handler` cache never raises and always forwards. -/
theorem handle_raises_iff_self_registered (selfId : Nat) (selfName : String)
    (h : LoggerHeap) (record : PyLogRecord) :
    (∀ (initComplete : Bool) (cfg : Except String Unit),
      initComplete = true ∨ cfg = Except.ok () →
      (((lazyHandle selfId selfName Option.none initComplete cfg h record).err ≠
          Option.none) ↔
        (getLoggerStd selfName h).1 = selfId)) ∧
    (∀ (initComplete : Bool) (cfg : Except String Unit),
      (lazyHandle selfId selfName Option.none initComplete cfg h record).err ≠
        Option.none →
      (lazyHandle selfId selfName Option.none initComplete cfg h record).forwarded =
        []) ∧
    (∀ e : String,
      lazyHandle selfId selfName Option.none false (Except.error e) h record =
        ⟨some e, Option.none, false, h, []⟩) ∧
    (∀ (handlerId : Nat) (initComplete : Bool) (cfg : Except String Unit),
      (lazyHandle selfId selfName (some handlerId) initComplete cfg h record).err =
        Option.none ∧
      (lazyHandle selfId selfName (some handlerId) initComplete cfg h
          record).forwarded = [(handlerId, record)]) := by
  refine ⟨?_, ?_, fun e => rfl, fun handlerId ic cfg => ⟨rfl, rfl⟩⟩
  · intro ic cfg hok
    unfold lazyHandle
    rcases hok with hic | hcfg
    · subst hic
      by_cases hs : (getLoggerStd selfName h).1 = selfId <;> simp [hs]
    · subst hcfg
      cases ic <;>
        · by_cases hs : (getLoggerStd selfName h).1 = selfId <;> simp [hs]
  · intro ic cfg
    unfold lazyHandle
    cases hcc : (if ic then Except.ok () else cfg) with
    | error e => intro _; rfl
    | ok u =>
      by_cases hs : (getLoggerStd selfName h).1 = selfId <;> simp [hs]

/-- Witness for C7's amended theorem at concrete inputs: a registry mapping
`"app"` to the caller's own identity 5 makes the post-init call raise and
forward nothing; a raising config call propagates its error; a cached
handler forwards without raising. -/
theorem handle_raises_iff_self_registered_witness :
    ((lazyHandle 5 "app" Option.none true (Except.ok ()) ⟨[("app", 5)], 6⟩
        ⟨"app", 20, "x.py", 1, "hi"⟩).err ≠ Option.none) ∧
    (lazyHandle 5 "app" Option.none true (Except.ok ()) ⟨[("app", 5)], 6⟩
        ⟨"app", 20, "x.py", 1, "hi"⟩).forwarded = [] ∧
    lazyHandle 5 "app" Option.none false
        (Except.error "invalid literal for int() with base 10: ²")
        ⟨[("app", 5)], 6⟩ ⟨"app", 20, "x.py", 1, "hi"⟩ =
      ⟨some "invalid literal for int() with base 10: ²", Option.none, false,
        ⟨[("app", 5)], 6⟩, []⟩ ∧
    (lazyHandle 5 "app" (some 3) true (Except.ok ()) ⟨[("app", 5)], 6⟩
        ⟨"app", 20, "x.py", 1, "hi"⟩).err = Option.none :=
  have hiff := handle_raises_iff_self_registered 5 "app" ⟨[("app", 5)], 6⟩
    ⟨"app", 20, "x.py", 1, "hi"⟩
  have herr := (hiff.1 true (Except.ok ()) (Or.inl rfl)).mpr (by decide)
  ⟨herr, hiff.2.1 true (Except.ok ()) herr,
    hiff.2.2.1 "invalid literal for int() with base 10: ²",
    (hiff.2.2.2 3 true (Except.ok ())).1⟩

theorem gateInv_init : GateInv gateInit := by
  refine ⟨by simp [gateInit], ?_, ?_, ?_, ?_, ?_, ?_, ?_⟩ <;>
    simp [gateInit, holdsLock]

/-- Every step preserves the invariant, whether or not the process's
environment makes `_logging_basic_config` raise. -/
theorem gateInv_step {cfgFails : Bool} {s s' : GateState} (hInv : GateInv s)
    (hs : GateStep cfgFails s s') : GateInv s' := by
  have hI : GateInvC s.pcs s.lock s.initComplete s.configRuns := hInv
  cases hs with
  | fastDone i hpc hic =>
    show GateInvC (setPC s.pcs i GatePC.post) s.lock s.initComplete s.configRuns
    refine ⟨hI.runsLe, hI.icRuns, ?_, ?_, ?_, ?_, ?_, ?_⟩
    · intro h1 h2
      obtain ⟨j, hj1, hj2⟩ := hI.midRun h1 h2
      refine ⟨j, hj1, ?_⟩
      rcases eq_or_ne j i with rfl | hne
      · rw [hpc] at hj2; cases hj2
      · rw [setPC_ne _ _ _ _ hne]; exact hj2
    · intro j hj
      rcases eq_or_ne j i with rfl | hne
      · rw [setPC_self] at hj; simp [holdsLock] at hj
      · rw [setPC_ne _ _ _ _ hne] at hj; exact hI.held j hj
    · intro j hj
      rcases eq_or_ne j i with rfl | hne
      · rw [setPC_self] at hj; cases hj
      · rw [setPC_ne _ _ _ _ hne] at hj; exact hI.runZero j hj
    · intro j hj
      rcases eq_or_ne j i with rfl | hne
      · rw [setPC_self] at hj; cases hj
      · rw [setPC_ne _ _ _ _ hne] at hj; exact hI.flagRuns j hj
    · intro j hj
      rcases eq_or_ne j i with rfl | hne
      · rw [setPC_self] at hj; cases hj
      · rw [setPC_ne _ _ _ _ hne] at hj; exact hI.relIC j hj
    · intro j hj
      exact hic
  | fastMiss i hpc hic =>
    show GateInvC (setPC s.pcs i GatePC.acquire) s.lock s.initComplete s.configRuns
    refine ⟨hI.runsLe, hI.icRuns, ?_, ?_, ?_, ?_, ?_, ?_⟩
    · intro h1 h2
      obtain ⟨j, hj1, hj2⟩ := hI.midRun h1 h2
      refine ⟨j, hj1, ?_⟩
      rcases eq_or_ne j i with rfl | hne
      · rw [hpc] at hj2; cases hj2
      · rw [setPC_ne _ _ _ _ hne]; exact hj2
    · intro j hj
      rcases eq_or_ne j i with rfl | hne
      · rw [setPC_self] at hj; simp [holdsLock] at hj
      · rw [setPC_ne _ _ _ _ hne] at hj; exact hI.held j hj
    · intro j hj
      rcases eq_or_ne j i with rfl | hne
      · rw [setPC_self] at hj; cases hj
      · rw [setPC_ne _ _ _ _ hne] at hj; exact hI.runZero j hj
    · intro j hj
      rcases eq_or_ne j i with rfl | hne
      · rw [setPC_self] at hj; cases hj
      · rw [setPC_ne _ _ _ _ hne] at hj; exact hI.flagRuns j hj
    · intro j hj
      rcases eq_or_ne j i with rfl | hne
      · rw [setPC_self] at hj; cases hj
      · rw [setPC_ne _ _ _ _ hne] at hj; exact hI.relIC j hj
    · intro j hj
      rcases eq_or_ne j i with rfl | hne
      · rw [setPC_self] at hj; cases hj
      · rw [setPC_ne _ _ _ _ hne] at hj; exact hI.postIC j hj
  | acquire i hpc hl =>
    show GateInvC (setPC s.pcs i GatePC.recheck) (some i) s.initComplete s.configRuns
    refine ⟨hI.runsLe, hI.icRuns, ?_, ?_, ?_, ?_, ?_, ?_⟩
    · intro h1 h2
      obtain ⟨j, hj1, hj2⟩ := hI.midRun h1 h2
      rw [hl] at hj1; cases hj1
    · intro j hj
      rcases eq_or_ne j i with rfl | hne
      · rfl
      · rw [setPC_ne _ _ _ _ hne] at hj
        have hlj := hI.held j hj
        rw [hl] at hlj; cases hlj
    · intro j hj
      rcases eq_or_ne j i with rfl | hne
      · rw [setPC_self] at hj; cases hj
      · rw [setPC_ne _ _ _ _ hne] at hj; exact hI.runZero j hj
    · intro j hj
      rcases eq_or_ne j i with rfl | hne
      · rw [setPC_self] at hj; cases hj
      · rw [setPC_ne _ _ _ _ hne] at hj; exact hI.flagRuns j hj
    · intro j hj
      rcases eq_or_ne j i with rfl | hne
      · rw [setPC_self] at hj; cases hj
      · rw [setPC_ne _ _ _ _ hne] at hj; exact hI.relIC j hj
    · intro j hj
      rcases eq_or_ne j i with rfl | hne
      · rw [setPC_self] at hj; cases hj
      · rw [setPC_ne _ _ _ _ hne] at hj; exact hI.postIC j hj
  | recheckDone i hpc hic =>
    show GateInvC (setPC s.pcs i GatePC.release) s.lock s.initComplete s.configRuns
    refine ⟨hI.runsLe, hI.icRuns, ?_, ?_, ?_, ?_, ?_, ?_⟩
    · intro h1 h2
      rw [hic] at h2; cases h2
    · intro j hj
      rcases eq_or_ne j i with rfl | hne
      · exact hI.held j (by rw [hpc]; left; rfl)
      · rw [setPC_ne _ _ _ _ hne] at hj; exact hI.held j hj
    · intro j hj
      rcases eq_or_ne j i with rfl | hne
      · rw [setPC_self] at hj; cases hj
      · rw [setPC_ne _ _ _ _ hne] at hj; exact hI.runZero j hj
    · intro j hj
      rcases eq_or_ne j i with rfl | hne
      · rw [setPC_self] at hj; cases hj
      · rw [setPC_ne _ _ _ _ hne] at hj; exact hI.flagRuns j hj
    · intro j hj
      exact hic
    · intro j hj
      rcases eq_or_ne j i with rfl | hne
      · rw [setPC_self] at hj; cases hj
      · rw [setPC_ne _ _ _ _ hne] at hj; exact hI.postIC j hj
  | recheckRun i hpc hic =>
    have hlock : s.lock = some i := hI.held i (by rw [hpc]; left; rfl)
    have hrz : s.configRuns = 0 := by
      rcases Nat.lt_or_ge s.configRuns 1 with h | h
      · omega
      · have h1 : s.configRuns = 1 := le_antisymm hI.runsLe h
        obtain ⟨j, hj1, hj2⟩ := hI.midRun h1 hic
        rw [hlock] at hj1
        cases hj1
        rw [hpc] at hj2; cases hj2
    show GateInvC (setPC s.pcs i GatePC.runCfg) s.lock s.initComplete s.configRuns
    refine ⟨hI.runsLe, hI.icRuns, ?_, ?_, ?_, ?_, ?_, ?_⟩
    · intro h1 h2
      rw [hrz] at h1; cases h1
    · intro j hj
      rcases eq_or_ne j i with rfl | hne
      · exact hlock
      · rw [setPC_ne _ _ _ _ hne] at hj; exact hI.held j hj
    · intro j hj
      exact ⟨hrz, hic⟩
    · intro j hj
      rcases eq_or_ne j i with rfl | hne
      · rw [setPC_self] at hj; cases hj
      · rw [setPC_ne _ _ _ _ hne] at hj; exact hI.flagRuns j hj
    · intro j hj
      rcases eq_or_ne j i with rfl | hne
      · rw [setPC_self] at hj; cases hj
      · rw [setPC_ne _ _ _ _ hne] at hj; exact hI.relIC j hj
    · intro j hj
      rcases eq_or_ne j i with rfl | hne
      · rw [setPC_self] at hj; cases hj
      · rw [setPC_ne _ _ _ _ hne] at hj; exact hI.postIC j hj
  | runConfigOk i hpc hok =>
    have hlock : s.lock = some i := hI.held i (by rw [hpc]; right; left; rfl)
    obtain ⟨hrz, hicf⟩ := hI.runZero i hpc
    show GateInvC (setPC s.pcs i GatePC.setFlag) s.lock s.initComplete
      (s.configRuns + 1)
    refine ⟨by omega, ?_, ?_, ?_, ?_, ?_, ?_, ?_⟩
    · intro h
      rw [hicf] at h; cases h
    · intro h1 h2
      exact ⟨i, hlock, setPC_self _ _ _⟩
    · intro j hj
      rcases eq_or_ne j i with rfl | hne
      · exact hlock
      · rw [setPC_ne _ _ _ _ hne] at hj; exact hI.held j hj
    · intro j hj
      rcases eq_or_ne j i with rfl | hne
      · rw [setPC_self] at hj; cases hj
      · rw [setPC_ne _ _ _ _ hne] at hj
        have hlj := hI.held j (by rw [hj]; right; left; rfl)
        rw [hlock] at hlj
        cases hlj
        exact absurd rfl hne
    · intro j hj
      rcases eq_or_ne j i with rfl | hne
      · exact ⟨by omega, hicf⟩
      · rw [setPC_ne _ _ _ _ hne] at hj
        have hlj := hI.held j (by rw [hj]; right; right; left; rfl)
        rw [hlock] at hlj
        cases hlj
        exact absurd rfl hne
    · intro j hj
      rcases eq_or_ne j i with rfl | hne
      · rw [setPC_self] at hj; cases hj
      · rw [setPC_ne _ _ _ _ hne] at hj; exact hI.relIC j hj
    · intro j hj
      rcases eq_or_ne j i with rfl | hne
      · rw [setPC_self] at hj; cases hj
      · rw [setPC_ne _ _ _ _ hne] at hj
        have hpic := hI.postIC j hj
        rw [hicf] at hpic; cases hpic
  | runConfigFail i hpc hfail =>
    have hlock : s.lock = some i := hI.held i (by rw [hpc]; right; left; rfl)
    obtain ⟨hrz, hicf⟩ := hI.runZero i hpc
    show GateInvC (setPC s.pcs i GatePC.releaseFail) s.lock s.initComplete s.configRuns
    refine ⟨hI.runsLe, hI.icRuns, ?_, ?_, ?_, ?_, ?_, ?_⟩
    · intro h1 h2
      rw [hrz] at h1; cases h1
    · intro j hj
      rcases eq_or_ne j i with rfl | hne
      · exact hlock
      · rw [setPC_ne _ _ _ _ hne] at hj; exact hI.held j hj
    · intro j hj
      rcases eq_or_ne j i with rfl | hne
      · rw [setPC_self] at hj; cases hj
      · rw [setPC_ne _ _ _ _ hne] at hj; exact hI.runZero j hj
    · intro j hj
      rcases eq_or_ne j i with rfl | hne
      · rw [setPC_self] at hj; cases hj
      · rw [setPC_ne _ _ _ _ hne] at hj; exact hI.flagRuns j hj
    · intro j hj
      rcases eq_or_ne j i with rfl | hne
      · rw [setPC_self] at hj; cases hj
      · rw [setPC_ne _ _ _ _ hne] at hj; exact hI.relIC j hj
    · intro j hj
      rcases eq_or_ne j i with rfl | hne
      · rw [setPC_self] at hj; cases hj
      · rw [setPC_ne _ _ _ _ hne] at hj; exact hI.postIC j hj
  | setDone i hpc =>
    have hlock : s.lock = some i := hI.held i (by rw [hpc]; right; right; left; rfl)
    obtain ⟨hr1, hicf⟩ := hI.flagRuns i hpc
    show GateInvC (setPC s.pcs i GatePC.release) s.lock true s.configRuns
    refine ⟨hI.runsLe, fun _ => hr1, ?_, ?_, ?_, ?_, ?_, ?_⟩
    · intro h1 h2
      cases h2
    · intro j hj
      rcases eq_or_ne j i with rfl | hne
      · exact hlock
      · rw [setPC_ne _ _ _ _ hne] at hj; exact hI.held j hj
    · intro j hj
      rcases eq_or_ne j i with rfl | hne
      · rw [setPC_self] at hj; cases hj
      · rw [setPC_ne _ _ _ _ hne] at hj
        have hlj := hI.held j (by rw [hj]; right; left; rfl)
        rw [hlock] at hlj
        cases hlj
        exact absurd rfl hne
    · intro j hj
      rcases eq_or_ne j i with rfl | hne
      · rw [setPC_self] at hj; cases hj
      · rw [setPC_ne _ _ _ _ hne] at hj
        have hlj := hI.held j (by rw [hj]; right; right; left; rfl)
        rw [hlock] at hlj
        cases hlj
        exact absurd rfl hne
    · intro j hj
      rfl
    · intro j hj
      rfl
  | unlock i hpc =>
    have hic := hI.relIC i hpc
    have hlock : s.lock = some i :=
      hI.held i (by rw [hpc]; right; right; right; left; rfl)
    show GateInvC (setPC s.pcs i GatePC.post) Option.none s.initComplete s.configRuns
    refine ⟨hI.runsLe, hI.icRuns, ?_, ?_, ?_, ?_, ?_, ?_⟩
    · intro h1 h2
      rw [hic] at h2; cases h2
    · intro j hj
      rcases eq_or_ne j i with rfl | hne
      · rw [setPC_self] at hj; simp [holdsLock] at hj
      · rw [setPC_ne _ _ _ _ hne] at hj
        have hlj := hI.held j hj
        rw [hlock] at hlj
        cases hlj
        exact absurd rfl hne
    · intro j hj
      rcases eq_or_ne j i with rfl | hne
      · rw [setPC_self] at hj; cases hj
      · rw [setPC_ne _ _ _ _ hne] at hj
        have hlj := hI.held j (by rw [hj]; right; left; rfl)
        rw [hlock] at hlj
        cases hlj
        exact absurd rfl hne
    · intro j hj
      rcases eq_or_ne j i with rfl | hne
      · rw [setPC_self] at hj; cases hj
      · rw [setPC_ne _ _ _ _ hne] at hj
        have hlj := hI.held j (by rw [hj]; right; right; left; rfl)
        rw [hlock] at hlj
        cases hlj
        exact absurd rfl hne
    · intro j hj
      exact hic
    · intro j hj
      rcases eq_or_ne j i with rfl | hne
      · exact hic
      · rw [setPC_ne _ _ _ _ hne] at hj; exact hI.postIC j hj
  | unlockFail i hpc =>
    have hlock : s.lock = some i :=
      hI.held i (by rw [hpc]; right; right; right; right; rfl)
    show GateInvC (setPC s.pcs i GatePC.failed) Option.none s.initComplete s.configRuns
    refine ⟨hI.runsLe, hI.icRuns, ?_, ?_, ?_, ?_, ?_, ?_⟩
    · intro h1 h2
      obtain ⟨j, hj1, hj2⟩ := hI.midRun h1 h2
      rw [hlock] at hj1
      cases hj1
      rw [hpc] at hj2; cases hj2
    · intro j hj
      rcases eq_or_ne j i with rfl | hne
      · rw [setPC_self] at hj; simp [holdsLock] at hj
      · rw [setPC_ne _ _ _ _ hne] at hj
        have hlj := hI.held j hj
        rw [hlock] at hlj
        cases hlj
        exact absurd rfl hne
    · intro j hj
      rcases eq_or_ne j i with rfl | hne
      · rw [setPC_self] at hj; cases hj
      · rw [setPC_ne _ _ _ _ hne] at hj; exact hI.runZero j hj
    · intro j hj
      rcases eq_or_ne j i with rfl | hne
      · rw [setPC_self] at hj; cases hj
      · rw [setPC_ne _ _ _ _ hne] at hj; exact hI.flagRuns j hj
    · intro j hj
      rcases eq_or_ne j i with rfl | hne
      · rw [setPC_self] at hj; cases hj
      · rw [setPC_ne _ _ _ _ hne] at hj; exact hI.relIC j hj
    · intro j hj
      rcases eq_or_ne j i with rfl | hne
      · rw [setPC_self] at hj; cases hj
      · rw [setPC_ne _ _ _ _ hne] at hj; exact hI.postIC j hj

/-- The invariant holds in every reachable state, for either value of the
per-process raise/no-raise behaviour of `_logging_basic_config`. -/
theorem gateInv_reachable {cfgFails : Bool} {s : GateState}
    (h : GateReachable cfgFails s) : GateInv s := by
  induction h with
  | init => exact gateInv_init
  | step s s' h hs ih => exact gateInv_step ih hs

/-- C1 amended: over every interleaving of `handle` calls by any number of
threads on any number of channels, `_logging_basic_config` completes at
most once per process; once some call has passed the init block normally,
it has completed exactly once and `_INIT_COMPLETE` is true; and no step
ever resets `_INIT_COMPLETE` from true to false. Invocations, by contrast,
are not bounded: a raising run (see `gate_reruns_counterexample`) leaves
the flag false and later `handle` calls re-invoke the routine. -/
theorem gate_completes_at_most_once :
    (∀ (cfgFails : Bool) (s : GateState), GateReachable cfgFails s →
      s.configRuns ≤ 1 ∧
        ∀ i, s.pcs i = GatePC.post → s.configRuns = 1 ∧ s.initComplete = true) ∧
    (∀ (cfgFails : Bool) (s s' : GateState), GateStep cfgFails s s' →
      s.initComplete = true → s'.initComplete = true) := by
  constructor
  · intro cf s hreach
    have hI : GateInvC s.pcs s.lock s.initComplete s.configRuns :=
      gateInv_reachable hreach
    refine ⟨hI.runsLe, fun i hi => ?_⟩
    have hic := hI.postIC i hi
    exact ⟨hI.icRuns hic, hic⟩
  · intro cf s s' hs hic
    cases hs <;> first | exact hic | rfl

/-- Witness for C1's amended theorem: the initial state is reachable and
satisfies the completion bound, and a concrete fast-path step out of an
already-completed state preserves the flag. -/
theorem gate_completes_at_most_once_witness :
    gateInit.configRuns ≤ 1 ∧
    (GateState.mk (setPC (fun _ => GatePC.checkFast) 0 GatePC.post) Option.none true
        1 1).initComplete = true :=
  ⟨(gate_completes_at_most_once.1 false gateInit GateReachable.init).1,
    gate_completes_at_most_once.2 false
      ⟨fun _ => GatePC.checkFast, Option.none, true, 1, 1⟩
      ⟨setPC (fun _ => GatePC.checkFast) 0 GatePC.post, Option.none, true, 1, 1⟩
      (GateStep.fastDone ⟨fun _ => GatePC.checkFast, Option.none, true, 1, 1⟩ 0 rfl
        rfl)
      rfl⟩

/-- Counterexample to C1 as stated: in a process whose environment poisons
level resolution (`LOG_LEVEL="²"`, so `_logging_basic_config` raises —
`cfgFails = true`), two successive `handle` calls each invoke
`_logging_basic_config`: the reachable state below has two invocations,
zero completions, and `_INIT_COMPLETE` still false, so the action does not
execute at most once per process. -/
theorem gate_reruns_counterexample :
    GateReachable true
      ⟨setPC (setPC (setPC (setPC (setPC (setPC (setPC (setPC (setPC (setPC
          gateInit.pcs 0 GatePC.acquire) 0 GatePC.recheck) 0 GatePC.runCfg)
          0 GatePC.releaseFail) 0 GatePC.failed) 1 GatePC.acquire) 1 GatePC.recheck)
          1 GatePC.runCfg) 1 GatePC.releaseFail) 1 GatePC.failed,
        Option.none, false, 0, 2⟩ ∧
    (2 : Nat) ≠ 1 ∧
    resolvedLevelNo Option.none ["prog"] Option.none (some "²") =
      Except.error "invalid literal for int() with base 10: ²" := by
  refine ⟨?_, by decide, by decide⟩
  have h1 : GateReachable true
      ⟨setPC gateInit.pcs 0 GatePC.acquire, Option.none, false, 0, 0⟩ :=
    GateReachable.step _ _ GateReachable.init (GateStep.fastMiss gateInit 0 rfl rfl)
  have h2 : GateReachable true
      ⟨setPC (setPC gateInit.pcs 0 GatePC.acquire) 0 GatePC.recheck, some 0, false,
        0, 0⟩ :=
    GateReachable.step _ _ h1 (GateStep.acquire _ 0 rfl rfl)
  have h3 : GateReachable true
      ⟨setPC (setPC (setPC gateInit.pcs 0 GatePC.acquire) 0 GatePC.recheck) 0
          GatePC.runCfg, some 0, false, 0, 0⟩ :=
    GateReachable.step _ _ h2 (GateStep.recheckRun _ 0 rfl rfl)
  have h4 : GateReachable true
      ⟨setPC (setPC (setPC (setPC gateInit.pcs 0 GatePC.acquire) 0 GatePC.recheck) 0
          GatePC.runCfg) 0 GatePC.releaseFail, some 0, false, 0, 1⟩ :=
    GateReachable.step _ _ h3 (GateStep.runConfigFail _ 0 rfl rfl)
  have h5 : GateReachable true
      ⟨setPC (setPC (setPC (setPC (setPC gateInit.pcs 0 GatePC.acquire) 0
          GatePC.recheck) 0 GatePC.runCfg) 0 GatePC.releaseFail) 0 GatePC.failed,
        Option.none, false, 0, 1⟩ :=
    GateReachable.step _ _ h4 (GateStep.unlockFail _ 0 rfl)
  have h6 : GateReachable true
      ⟨setPC (setPC (setPC (setPC (setPC (setPC gateInit.pcs 0 GatePC.acquire) 0
          GatePC.recheck) 0 GatePC.runCfg) 0 GatePC.releaseFail) 0 GatePC.failed) 1
          GatePC.acquire, Option.none, false, 0, 1⟩ :=
    GateReachable.step _ _ h5 (GateStep.fastMiss _ 1 rfl rfl)
  have h7 : GateReachable true
      ⟨setPC (setPC (setPC (setPC (setPC (setPC (setPC gateInit.pcs 0
          GatePC.acquire) 0 GatePC.recheck) 0 GatePC.runCfg) 0 GatePC.releaseFail) 0
          GatePC.failed) 1 GatePC.acquire) 1 GatePC.recheck, some 1, false, 0, 1⟩ :=
    GateReachable.step _ _ h6 (GateStep.acquire _ 1 rfl rfl)
  have h8 : GateReachable true
      ⟨setPC (setPC (setPC (setPC (setPC (setPC (setPC (setPC gateInit.pcs 0
          GatePC.acquire) 0 GatePC.recheck) 0 GatePC.runCfg) 0 GatePC.releaseFail) 0
          GatePC.failed) 1 GatePC.acquire) 1 GatePC.recheck) 1 GatePC.runCfg, some 1,
        false, 0, 1⟩ :=
    GateReachable.step _ _ h7 (GateStep.recheckRun _ 1 rfl rfl)
  have h9 : GateReachable true
      ⟨setPC (setPC (setPC (setPC (setPC (setPC (setPC (setPC (setPC gateInit.pcs 0
          GatePC.acquire) 0 GatePC.recheck) 0 GatePC.runCfg) 0 GatePC.releaseFail) 0
          GatePC.failed) 1 GatePC.acquire) 1 GatePC.recheck) 1 GatePC.runCfg) 1
          GatePC.releaseFail, some 1, false, 0, 2⟩ :=
    GateReachable.step _ _ h8 (GateStep.runConfigFail _ 1 rfl rfl)
  exact GateReachable.step _ _ h9 (GateStep.unlockFail _ 1 rfl)
